import Mathlib

/-!
Verification of the medical-appointments dashboard pipeline (src/project.py).

The script cleans a table of appointment records (age filter, timestamp
parsing, `DaysDiff` derivation and filter, text trimming, `No_show_flag`
mapping, weekday derivation) and serves a dashboard whose single callback
`update_charts` filters the cleaned table by neighborhood and age range and
rebuilds six chart data sets.

The embedding below models one pandas row as a structure, the cleaning
section (project.py lines 34-52) as `cleanPipeline`, and the callback's
data logic (project.py lines 172-231) as `applyFilters` / `sixAggregates` /
`updateCharts`.  Timestamps are integers counting seconds since the epoch
(the value `pd.to_datetime` parses); pandas `Timedelta.days` is floor
division by 86400, `Series.map` with a dict yields a missing value (`none`,
pandas NaN) on unmapped keys, and `Series.str.strip` trims whitespace on
both ends.
-/

/-- Characters stripped from both ends, as Python `str.strip()` does. -/
def pyStripChars (l : List Char) : List Char :=
  ((l.dropWhile Char.isWhitespace).reverse.dropWhile Char.isWhitespace).reverse

/-- Model of pandas `Series.str.strip()` on one cell (project.py lines 46-48). -/
def pyStrip (s : String) : String := String.mk (pyStripChars s.data)

/-- One raw input row, after `pd.to_datetime` has parsed the two timestamp
columns into epoch seconds (project.py lines 36-38).  Field names follow the
CSV columns (`Age`, `Neighbourhood`, `No-show`, `Hipertension`, ...). -/
structure RawRow where
  gender : String
  age : Int
  neighbourhood : String
  scheduledDay : Int
  appointmentDay : Int
  noShow : String
  hipertension : Nat
  diabetes : Nat
  alcoholism : Nat
deriving DecidableEq, Repr

/-- One row of the cleaned table: the raw columns (text columns trimmed)
plus the derived columns `DaysDiff`, `No_show_flag`, `AppointmentWeekday`. -/
structure CleanRow where
  gender : String
  age : Int
  neighbourhood : String
  scheduledDay : Int
  appointmentDay : Int
  noShow : String
  hipertension : Nat
  diabetes : Nat
  alcoholism : Nat
  daysDiff : Int
  noShowFlag : Option Nat
  appointmentWeekday : String
deriving DecidableEq, Repr

/-- Pandas `Timedelta.days`: floor of the timedelta (in seconds) divided by
one day (86400 s).  Like Python `timedelta`, −18 hours has `days = −1`. -/
def tdDays (x : Int) : Int := Int.fdiv x 86400

/-- The `DaysDiff` column: `(df.AppointmentDay − df.ScheduledDay).dt.days`
(project.py line 40). -/
def rowDaysDiff (r : RawRow) : Int := tdDays (r.appointmentDay - r.scheduledDay)

/-- The calendar day (days since the epoch) of a timestamp; this is the
`.date` of the timestamp for UTC values. -/
def epochDay (t : Int) : Int := Int.fdiv t 86400

/-- Modelled from the spec: the spec defines `days_diff` as
`appointment_at.date − scheduled_at.date` in days, a difference of calendar
dates.  This definition follows the spec's words and is compared against
`rowDaysDiff`, which models what the code computes. -/
def specCalendarDaysDiff (r : RawRow) : Int :=
  epochDay r.appointmentDay - epochDay r.scheduledDay

/-- The dict mapping of `df['No-show'].map({'No': 0, 'Yes': 1})`
(project.py line 50): unmapped keys become a missing value (pandas NaN). -/
def noShowMap (s : String) : Option Nat :=
  if s = "No" then some 0 else if s = "Yes" then some 1 else none

/-- Weekday names indexed from the epoch (1970-01-01 was a Thursday). -/
def weekdayNames : List String :=
  ["Thursday", "Friday", "Saturday", "Sunday", "Monday", "Tuesday", "Wednesday"]

/-- Model of `df['AppointmentDay'].dt.day_name()` (project.py line 52). -/
def weekdayName (t : Int) : String :=
  weekdayNames.getD (Int.emod (epochDay t) 7).toNat ""

/-- The column derivations applied to one surviving row: trimming of the
three text columns (project.py lines 46-48), the flag map (line 50) and the
weekday column (line 52), together with the `DaysDiff` column already
materialised at line 40. -/
def toCleanRow (r : RawRow) : CleanRow where
  gender := pyStrip r.gender
  age := r.age
  neighbourhood := pyStrip r.neighbourhood
  scheduledDay := r.scheduledDay
  appointmentDay := r.appointmentDay
  noShow := pyStrip r.noShow
  hipertension := r.hipertension
  diabetes := r.diabetes
  alcoholism := r.alcoholism
  daysDiff := rowDaysDiff r
  noShowFlag := noShowMap (pyStrip r.noShow)
  appointmentWeekday := weekdayName r.appointmentDay

/-- The cleaning section of project.py (lines 34-52): keep rows with
`Age >= 0`, keep rows with `DaysDiff >= 0`, then populate the trimmed and
derived columns.  Row order is preserved. -/
def cleanPipeline (rows : List RawRow) : List CleanRow :=
  (((rows.filter fun r => decide (0 ≤ r.age)).filter
      fun r => decide (0 ≤ rowDaysDiff r)).map toCleanRow)

/-- The age-range predicate of the callback:
`(dff['Age'] >= age_range[0]) & (dff['Age'] <= age_range[1])`
(project.py line 181). -/
def agePred (lo hi : Int) (r : CleanRow) : Bool :=
  decide (lo ≤ r.age) && decide (r.age ≤ hi)

/-- The filtering part of `update_charts` (project.py lines 173-181): a copy
of the table, the neighborhood filter applied only when the selector is
truthy (Python `if selected_neighborhood:` — both `None` and the empty
string skip the filter), then the inclusive age-range filter. -/
def applyFilters (df : List CleanRow) (sel : Option String) (lo hi : Int) :
    List CleanRow :=
  let dff := df
  let dff' := match sel with
    | none => dff
    | some s => if s = "" then dff else dff.filter fun r => decide (r.neighbourhood = s)
  dff'.filter (agePred lo hi)

/-- Data behind the pie chart (project.py lines 184-187): the number of rows
of the filtered table whose `No-show` value is `v`. -/
def pieCount (dff : List CleanRow) (v : String) : Nat :=
  dff.countP fun r => decide (r.noShow = v)

/-- Model of `Series.value_counts()`: each distinct value with its number of
occurrences, sorted by count descending.  Pandas leaves the relative order
of equal counts unspecified (its sort on counts is not stable); the model
fixes a deterministic order, and no theorem below depends on which order
ties take. -/
def valueCounts (l : List String) : List (String × Nat) :=
  l.dedup.map fun v => (v, l.count v)

/-- Count-descending comparison used to sort `valueCounts`. -/
def cntGE (a b : String × Nat) : Prop := b.2 ≤ a.2

instance : DecidableRel cntGE := fun a b => inferInstanceAs (Decidable (b.2 ≤ a.2))

instance : IsTotal (String × Nat) cntGE := ⟨fun a b => Nat.le_total b.2 a.2⟩

instance : IsTrans (String × Nat) cntGE := ⟨fun _ _ _ hab hbc => Nat.le_trans hbc hab⟩

/-- Model of `value_counts().head(20).index`: the values of the 20 largest
counts. -/
def topValues (l : List String) : List String :=
  ((List.insertionSort cntGE (valueCounts l)).take 20).map Prod.fst

/-- `top_nb = dff['Neighbourhood'].value_counts().head(20).index`
(project.py line 205). -/
def topNb (dff : List CleanRow) : List String :=
  topValues (dff.map fun r => r.neighbourhood)

/-- `dff['HasChronic'] = dff[['Hipertension','Diabetes','Alcoholism']].sum(axis=1)`
(project.py line 214). -/
def hasChronic (r : CleanRow) : Nat := r.hipertension + r.diabetes + r.alcoholism

/-- `dff['ChronicCondition'] = dff['HasChronic'].apply(lambda x: 'Yes' if x > 0 else 'No')`
(project.py line 215). -/
def chronicCondition (r : CleanRow) : String :=
  if 0 < hasChronic r then "Yes" else "No"

/-- The data sets behind the six figures returned by `update_charts`. -/
structure Aggregates where
  pieData : List String
  ageGenderData : List (Int × String)
  weekdayData : List (String × String)
  neighborhoodData : List (String × String)
  chronicData : List (String × String)
  delayData : List (String × Int)
deriving DecidableEq, Repr

/-- The six chart data sets computed from the filtered table
(project.py lines 183-228): pie of `No-show`; `Age` × `Gender` histogram
data; `AppointmentWeekday` × `No-show`; `Neighbourhood` × `No-show`
restricted with `isin(top_nb)`; `ChronicCondition` × `No-show`;
`No-show` × `DaysDiff` box data. -/
def sixAggregates (dff : List CleanRow) : Aggregates where
  pieData := dff.map fun r => r.noShow
  ageGenderData := dff.map fun r => (r.age, r.gender)
  weekdayData := dff.map fun r => (r.appointmentWeekday, r.noShow)
  neighborhoodData :=
    (dff.filter fun r => decide (r.neighbourhood ∈ topNb dff)).map
      fun r => (r.neighbourhood, r.noShow)
  chronicData := dff.map fun r => (chronicCondition r, r.noShow)
  delayData := dff.map fun r => (r.noShow, r.daysDiff)

/-- The whole callback as a state-passing function: it receives the canonical
cleaned table, works on a copy (`dff = df.copy()`, project.py line 173), and
returns the canonical table as it stands after the invocation together with
the six aggregates. -/
def updateCharts (df : List CleanRow) (sel : Option String) (lo hi : Int) :
    List CleanRow × Aggregates :=
  let dff := df
  (df, sixAggregates (applyFilters dff sel lo hi))

/-! ### Concrete rows used by counterexamples and witnesses -/

/-- A representative well-formed raw row: booked 2016-05-05 00:00 UTC
(epoch 1462406400), appointment 2016-05-10 00:00 UTC (epoch 1462838400). -/
def baseRow : RawRow where
  gender := "F"
  age := 30
  neighbourhood := "JARDIM DA PENHA"
  scheduledDay := 1462406400
  appointmentDay := 1462838400
  noShow := "No"
  hipertension := 0
  diabetes := 0
  alcoholism := 0

/-- The spec's dropped-row example: scheduled 2016-05-10, appointment
2016-05-05 (five days before the booking). -/
def lateBookingRow : RawRow :=
  { baseRow with scheduledDay := 1462838400, appointmentDay := 1462406400 }

/-- A same-calendar-day row: booked 2016-05-10 18:00 UTC (epoch 1462903200),
appointment 2016-05-10 00:00 UTC.  Its calendar-date difference is 0 but the
timestamp difference is −18 hours. -/
def sameDayRow : RawRow :=
  { baseRow with scheduledDay := 1462903200, appointmentDay := 1462838400 }

/-- A row whose attendance value trims to a word outside {"No","Yes"}. -/
def outOfVocabRow : RawRow := { baseRow with noShow := " MAYBE " }

/-- A row with an age above the slider's upper bound of 100. -/
def age115Row : RawRow := { baseRow with age := 115 }

/-- A row with a negative age. -/
def negAgeRow : RawRow := { baseRow with age := -1 }

/-- The spec's trimming example: attendance value " Yes " with padding. -/
def paddedYesRow : RawRow := { baseRow with noShow := " Yes " }

/-- A cleaned-row builder for callback-level witnesses. -/
def mkClean (nb : String) (ageV : Int) (ns : String) : CleanRow where
  gender := "F"
  age := ageV
  neighbourhood := nb
  scheduledDay := 0
  appointmentDay := 86400
  noShow := ns
  hipertension := 0
  diabetes := 1
  alcoholism := 0
  daysDiff := 1
  noShowFlag := noShowMap ns
  appointmentWeekday := "Friday"

/-- A three-row cleaned table touching two neighborhoods and two outcomes. -/
def dfSmall : List CleanRow :=
  [mkClean "JARDIM DA PENHA" 30 "Yes", mkClean "MARIA ORTIZ" 30 "No",
   mkClean "JARDIM DA PENHA" 70 "Yes"]

/-- Twenty-one distinct neighborhood names. -/
def nbLetters : List String :=
  ["A", "B", "C", "D", "E", "F", "G", "H", "I", "J", "K", "L", "M", "N", "O",
   "P", "Q", "R", "S", "T", "U"]

/-- A cleaned table with 21 distinct neighborhoods, one row each. -/
def dfManyNb : List CleanRow := nbLetters.map fun s => mkClean s 30 "No"

/-! ### Helper lemmas about the cleaning pipeline -/

theorem mem_cleanPipeline {rows : List RawRow} {c : CleanRow} :
    c ∈ cleanPipeline rows ↔
      ∃ r, r ∈ rows ∧ 0 ≤ r.age ∧ 0 ≤ rowDaysDiff r ∧ toCleanRow r = c := by
  simp only [cleanPipeline, List.mem_map, List.mem_filter, decide_eq_true_eq]
  tauto

theorem cleanPipeline_age_nonneg {rows : List RawRow} {c : CleanRow}
    (h : c ∈ cleanPipeline rows) : 0 ≤ c.age := by
  obtain ⟨r, _, hage, _, rfl⟩ := mem_cleanPipeline.mp h
  exact hage

theorem cleanPipeline_daysDiff_nonneg {rows : List RawRow} {c : CleanRow}
    (h : c ∈ cleanPipeline rows) : 0 ≤ c.daysDiff := by
  obtain ⟨r, _, _, hdd, rfl⟩ := mem_cleanPipeline.mp h
  exact hdd

theorem cleanPipeline_daysDiff_eq {rows : List RawRow} {c : CleanRow}
    (h : c ∈ cleanPipeline rows) :
    c.daysDiff = tdDays (c.appointmentDay - c.scheduledDay) := by
  obtain ⟨r, _, _, _, rfl⟩ := mem_cleanPipeline.mp h
  rfl

theorem cleanPipeline_flag_eq {rows : List RawRow} {c : CleanRow}
    (h : c ∈ cleanPipeline rows) : c.noShowFlag = noShowMap c.noShow := by
  obtain ⟨r, _, _, _, rfl⟩ := mem_cleanPipeline.mp h
  rfl

theorem noShowMap_eq_one {s : String} : noShowMap s = some 1 ↔ s = "Yes" := by
  unfold noShowMap
  split_ifs with h1 h2
  · subst h1; decide
  · subst h2; simp
  · simp [h2]

theorem noShowMap_eq_none {s : String} (h1 : s ≠ "No") (h2 : s ≠ "Yes") :
    noShowMap s = none := by
  simp [noShowMap, h1, h2]

theorem tdDays_eq_ediv (x : Int) : tdDays x = x / 86400 :=
  Int.fdiv_eq_ediv x (by norm_num)

theorem epochDay_eq_ediv (t : Int) : epochDay t = t / 86400 :=
  Int.fdiv_eq_ediv t (by norm_num)

theorem rowDaysDiff_neg_of_specNeg {r : RawRow}
    (h : specCalendarDaysDiff r < 0) : rowDaysDiff r < 0 := by
  unfold specCalendarDaysDiff at h
  unfold rowDaysDiff
  rw [epochDay_eq_ediv, epochDay_eq_ediv] at h
  rw [tdDays_eq_ediv]
  omega

theorem cleanPipeline_single_dropped {r : RawRow} (h : rowDaysDiff r < 0) :
    cleanPipeline [r] = [] := by
  have h2 : decide (0 ≤ rowDaysDiff r) = false := decide_eq_false (by omega)
  unfold cleanPipeline
  cases hage : decide (0 ≤ r.age) <;> simp [List.filter, hage, h2]

/-! ### Helper lemmas about the top-20 restriction -/

theorem valueCounts_fst (l : List String) :
    (valueCounts l).map Prod.fst = l.dedup := by
  unfold valueCounts
  rw [List.map_map]
  exact List.map_id _

theorem mem_valueCounts {l : List String} {p : String × Nat} :
    p ∈ valueCounts l ↔ p.1 ∈ l.dedup ∧ p.2 = l.count p.1 := by
  constructor
  · intro h
    obtain ⟨v, hv, he⟩ := List.mem_map.mp h
    cases he
    exact ⟨hv, rfl⟩
  · rintro ⟨h1, h2⟩
    exact List.mem_map.mpr ⟨p.1, h1, by rw [← h2]⟩

theorem topValues_length_le (l : List String) : (topValues l).length ≤ 20 := by
  unfold topValues
  rw [List.length_map, List.length_take]
  exact min_le_left _ _

theorem topValues_nodup (l : List String) : (topValues l).Nodup := by
  have h1 : ((List.insertionSort cntGE (valueCounts l)).map Prod.fst).Nodup := by
    have hperm : List.Perm ((List.insertionSort cntGE (valueCounts l)).map Prod.fst)
        ((valueCounts l).map Prod.fst) := (List.perm_insertionSort _ _).map _
    rw [hperm.nodup_iff, valueCounts_fst]
    exact l.nodup_dedup
  unfold topValues
  rw [List.map_take]
  exact h1.sublist (List.take_sublist _ _)

theorem topValues_subset {l : List String} {v : String}
    (h : v ∈ topValues l) : v ∈ l := by
  obtain ⟨p, hp, rfl⟩ := List.mem_map.mp h
  have hps : p ∈ List.insertionSort cntGE (valueCounts l) := List.mem_of_mem_take hp
  have hvc : p ∈ valueCounts l := (List.perm_insertionSort _ _).mem_iff.mp hps
  exact List.mem_dedup.mp (mem_valueCounts.mp hvc).1

theorem topValues_counts {l : List String} {v w : String}
    (hv : v ∈ topValues l) (hw : w ∈ l) (hnw : w ∉ topValues l) :
    l.count w ≤ l.count v := by
  obtain ⟨p, hp, rfl⟩ := List.mem_map.mp hv
  have hps : p ∈ List.insertionSort cntGE (valueCounts l) := List.mem_of_mem_take hp
  have hpv : p.2 = l.count p.1 :=
    (mem_valueCounts.mp ((List.perm_insertionSort _ _).mem_iff.mp hps)).2
  have hwvc : (w, l.count w) ∈ valueCounts l :=
    mem_valueCounts.mpr ⟨List.mem_dedup.mpr hw, rfl⟩
  have hwsort : (w, l.count w) ∈ List.insertionSort cntGE (valueCounts l) :=
    (List.perm_insertionSort _ _).mem_iff.mpr hwvc
  have hsplit : (w, l.count w) ∈
      (List.insertionSort cntGE (valueCounts l)).take 20 ++
        (List.insertionSort cntGE (valueCounts l)).drop 20 := by
    rw [List.take_append_drop]
    exact hwsort
  rcases List.mem_append.mp hsplit with h20 | h20
  · exact absurd (List.mem_map.mpr ⟨(w, l.count w), h20, rfl⟩) hnw
  · have hs : List.Sorted cntGE (List.insertionSort cntGE (valueCounts l)) :=
      List.sorted_insertionSort _ _
    have hrel : cntGE p (w, l.count w) := hs.rel_of_mem_take_of_mem_drop hp h20
    unfold cntGE at hrel
    rw [hpv] at hrel
    exact hrel

/-! ### Helper lemmas about the callback filters -/

theorem applyFilters_none (df : List CleanRow) (lo hi : Int) :
    applyFilters df none lo hi = df.filter (agePred lo hi) := rfl

theorem applyFilters_empty_sel (df : List CleanRow) (lo hi : Int) :
    applyFilters df (some "") lo hi = df.filter (agePred lo hi) := rfl

theorem applyFilters_some (df : List CleanRow) {s : String} (hs : s ≠ "")
    (lo hi : Int) :
    applyFilters df (some s) lo hi =
      df.filter fun r => decide (r.neighbourhood = s) && agePred lo hi r := by
  simp only [applyFilters]
  rw [if_neg hs]
  rw [List.filter_filter]
  exact List.filter_congr fun a _ => Bool.and_comm _ _

/-! ### Claim C1 -/

/-- C1, counterexample.  The claim says `days_diff` equals the calendar-date
difference `appointment_at.date − scheduled_at.date` and that exactly the
rows with a negative date difference are dropped.  `sameDayRow` (booked
2016-05-10 18:00, appointment 2016-05-10 00:00) has calendar-date difference
0 — under the claim it would be kept with `days_diff = 0` — but the code's
`(AppointmentDay - ScheduledDay).dt.days` floors the −18 h timestamp
difference to −1 and the row is dropped. -/
theorem c1_days_diff_counterexample :
    specCalendarDaysDiff sameDayRow = 0 ∧ rowDaysDiff sameDayRow = -1 ∧
    0 ≤ sameDayRow.age ∧ cleanPipeline [sameDayRow] = [] := by decide

/-- C1, amended.  For every surviving row, `days_diff` equals the floor of
the full timestamp difference `appointment_at − scheduled_at` in days (not
the calendar-date difference) and is nonnegative; every row whose
calendar-date difference is negative has a negative `days_diff` and is
dropped; and the spec's example row (scheduled 2016-05-10, appointment
2016-05-05) gets `days_diff = −5` and is dropped. -/
theorem c1_days_diff_amended :
    (∀ rows : List RawRow, ∀ c ∈ cleanPipeline rows,
        0 ≤ c.daysDiff ∧ c.daysDiff = tdDays (c.appointmentDay - c.scheduledDay)) ∧
    (∀ r : RawRow, specCalendarDaysDiff r < 0 →
        rowDaysDiff r < 0 ∧ cleanPipeline [r] = []) ∧
    rowDaysDiff lateBookingRow = -5 ∧ cleanPipeline [lateBookingRow] = [] := by
  refine ⟨fun rows c hc =>
      ⟨cleanPipeline_daysDiff_nonneg hc, cleanPipeline_daysDiff_eq hc⟩,
    fun r hr => ?_, by decide, by decide⟩
  have h := rowDaysDiff_neg_of_specNeg hr
  exact ⟨h, cleanPipeline_single_dropped h⟩

/-- C1, witness: the amended theorem applied to concrete rows. -/
theorem c1_days_diff_witness :
    (0 ≤ (toCleanRow baseRow).daysDiff ∧
      (toCleanRow baseRow).daysDiff =
        tdDays ((toCleanRow baseRow).appointmentDay - (toCleanRow baseRow).scheduledDay)) ∧
    (rowDaysDiff lateBookingRow < 0 ∧ cleanPipeline [lateBookingRow] = []) :=
  ⟨c1_days_diff_amended.1 [baseRow] (toCleanRow baseRow) (by decide),
   c1_days_diff_amended.2.1 lateBookingRow (by decide)⟩

/-! ### Claim C2 -/

/-- C2, counterexample.  The claim says an `attendance_outcome` outside
{"No","Yes"} makes the pipeline fail loudly with a `ValidationError`.  The
code's `map({'No': 0, 'Yes': 1})` raises nothing: on the row whose outcome
trims to "MAYBE" the pipeline completes and silently stores a missing
`No_show_flag` (pandas NaN, modelled as `none`). -/
theorem c2_out_of_vocab_counterexample :
    (cleanPipeline [outOfVocabRow]).map (fun r => (r.noShow, r.noShowFlag)) =
      [("MAYBE", none)] := by decide

/-- C2, amended.  When the trimmed `attendance_outcome` of a surviving row
lies outside {"No","Yes"}, the pipeline does not fail: it silently assigns
that row a missing `no_show_flag` (NaN) and continues. -/
theorem c2_out_of_vocab_amended :
    ∀ rows : List RawRow, ∀ c ∈ cleanPipeline rows,
      c.noShow ≠ "No" → c.noShow ≠ "Yes" → c.noShowFlag = none := by
  intro rows c hc h1 h2
  rw [cleanPipeline_flag_eq hc]
  exact noShowMap_eq_none h1 h2

/-- C2, witness: the amended theorem applied to the "MAYBE" row. -/
theorem c2_out_of_vocab_witness :
    (toCleanRow outOfVocabRow).noShowFlag = none :=
  c2_out_of_vocab_amended [outOfVocabRow] (toCleanRow outOfVocabRow)
    (by decide) (by decide) (by decide)

/-! ### Claim C3 -/

/-- C3, counterexample.  The claim says the `[0,100]` full-span filter with
no neighborhood selector is an identity on the cleaned table.  A cleaned row
with age 115 (ages above 100 survive cleaning, which only drops negative
ages) is excluded by the `Age <= 100` bound, so the filtered subset and every
aggregate computed from it differ from the whole cleaned table. -/
theorem c3_full_span_counterexample :
    applyFilters (cleanPipeline [age115Row]) none 0 100 = [] ∧
    cleanPipeline [age115Row] ≠ [] ∧
    sixAggregates (applyFilters (cleanPipeline [age115Row]) none 0 100) ≠
      sixAggregates (cleanPipeline [age115Row]) := by decide

/-- C3, amended.  With no neighborhood selector and range `[0,100]` the
filtered subset is exactly the cleaned rows with `patient_age ≤ 100` (the
lower bound is vacuous on cleaned rows); it equals the whole cleaned table —
and hence reproduces all six aggregates — exactly when every cleaned row has
`patient_age ≤ 100`. -/
theorem c3_full_span_amended :
    ∀ rows : List RawRow,
      applyFilters (cleanPipeline rows) none 0 100 =
        (cleanPipeline rows).filter (fun c => decide (c.age ≤ 100)) ∧
      ((∀ c ∈ cleanPipeline rows, c.age ≤ 100) →
        applyFilters (cleanPipeline rows) none 0 100 = cleanPipeline rows ∧
        sixAggregates (applyFilters (cleanPipeline rows) none 0 100) =
          sixAggregates (cleanPipeline rows)) := by
  intro rows
  have hfil : applyFilters (cleanPipeline rows) none 0 100 =
      (cleanPipeline rows).filter (fun c => decide (c.age ≤ 100)) := by
    rw [applyFilters_none]
    apply List.filter_congr
    intro c hc
    unfold agePred
    rw [decide_eq_true (cleanPipeline_age_nonneg hc), Bool.true_and]
  refine ⟨hfil, fun hall => ?_⟩
  have heq : applyFilters (cleanPipeline rows) none 0 100 = cleanPipeline rows := by
    rw [hfil]
    apply List.filter_eq_self.mpr
    intro c hc
    simpa using hall c hc
  exact ⟨heq, by rw [heq]⟩

/-- C3, witness: the amended theorem applied to a one-row table whose only
age is 30. -/
theorem c3_full_span_witness :
    applyFilters (cleanPipeline [baseRow]) none 0 100 = cleanPipeline [baseRow] ∧
    sixAggregates (applyFilters (cleanPipeline [baseRow]) none 0 100) =
      sixAggregates (cleanPipeline [baseRow]) :=
  (c3_full_span_amended [baseRow]).2 (by decide)

/-! ### Claim C4 -/

/-- C4.  Every row of the cleaned output satisfies `patient_age ≥ 0` and
`days_diff ≥ 0`, and the input row with age −1 is dropped entirely. -/
theorem c4_cleaned_invariants :
    (∀ rows : List RawRow, ∀ c ∈ cleanPipeline rows,
        0 ≤ c.age ∧ 0 ≤ c.daysDiff) ∧
    cleanPipeline [negAgeRow] = [] := by
  constructor
  · intro rows c hc
    exact ⟨cleanPipeline_age_nonneg hc, cleanPipeline_daysDiff_nonneg hc⟩
  · decide

/-- C4, witness: the invariants evaluated on a concrete surviving row. -/
theorem c4_cleaned_invariants_witness :
    0 ≤ (toCleanRow baseRow).age ∧ 0 ≤ (toCleanRow baseRow).daysDiff :=
  c4_cleaned_invariants.1 [baseRow] (toCleanRow baseRow) (by decide)

/-! ### Claim C5 -/

/-- C5.  For every row of the cleaned output, `no_show_flag = 1` iff the
trimmed `attendance_outcome` is "Yes", and it is 0 when the outcome is "No";
the input value " Yes " is trimmed to "Yes" and mapped to flag 1. -/
theorem c5_no_show_flag :
    (∀ rows : List RawRow, ∀ c ∈ cleanPipeline rows,
        (c.noShowFlag = some 1 ↔ c.noShow = "Yes") ∧
        (c.noShow = "No" → c.noShowFlag = some 0)) ∧
    (cleanPipeline [paddedYesRow]).map (fun r => (r.noShow, r.noShowFlag)) =
      [("Yes", some 1)] := by
  constructor
  · intro rows c hc
    rw [cleanPipeline_flag_eq hc]
    exact ⟨noShowMap_eq_one, fun h => by rw [h]; decide⟩
  · decide

/-- C5, witness: the flag characterisation on the " Yes " row. -/
theorem c5_no_show_flag_witness :
    ((toCleanRow paddedYesRow).noShowFlag = some 1 ↔
      (toCleanRow paddedYesRow).noShow = "Yes") ∧
    ((toCleanRow paddedYesRow).noShow = "No" →
      (toCleanRow paddedYesRow).noShowFlag = some 0) :=
  c5_no_show_flag.1 [paddedYesRow] (toCleanRow paddedYesRow) (by decide)

/-! ### Claim C6 -/

/-- C6.  For every non-empty neighborhood selector and inclusive age range
`[lo, hi]`, the filtered subset is exactly the cleaned rows matching the
selector with `lo ≤ patient_age ≤ hi` (both bounds inclusive), and the pie
aggregate counts exactly those rows partitioned by `attendance_outcome`. -/
theorem c6_filter_exactness :
    ∀ (s : String), s ≠ "" → ∀ (lo hi : Int) (df : List CleanRow) (v : String),
      applyFilters df (some s) lo hi =
        df.filter (fun r => decide (r.neighbourhood = s) && agePred lo hi r) ∧
      pieCount (applyFilters df (some s) lo hi) v =
        (df.filter fun r =>
          decide (r.neighbourhood = s) && agePred lo hi r &&
            decide (r.noShow = v)).length := by
  intro s hs lo hi df v
  have h1 := applyFilters_some df hs lo hi
  refine ⟨h1, ?_⟩
  rw [h1]
  unfold pieCount
  rw [List.countP_eq_length_filter, List.filter_filter]
  congr 1
  apply List.filter_congr
  intro a _
  cases hx : decide (a.noShow = v) <;>
    cases hy : decide (a.neighbourhood = s) <;>
      cases hz : agePred lo hi a <;> rfl

/-- C6, witness: the spec's example filter (neighborhood "JARDIM DA PENHA",
age range [18, 65]) on a concrete three-row table. -/
theorem c6_filter_exactness_witness :
    applyFilters dfSmall (some "JARDIM DA PENHA") 18 65 =
      dfSmall.filter (fun r =>
        decide (r.neighbourhood = "JARDIM DA PENHA") && agePred 18 65 r) ∧
    pieCount (applyFilters dfSmall (some "JARDIM DA PENHA") 18 65) "Yes" =
      (dfSmall.filter fun r =>
        decide (r.neighbourhood = "JARDIM DA PENHA") && agePred 18 65 r &&
          decide (r.noShow = "Yes")).length :=
  c6_filter_exactness "JARDIM DA PENHA" (by decide) 18 65 dfSmall "Yes"

/-! ### Claim C7 -/

/-- C7.  For every filtered subset, the top-20 neighborhood restriction
returns at most 20 distinct neighborhood values, each drawn from the
filtered subset itself, and every returned neighborhood has a row count (in
the filtered subset) at least that of every neighborhood left out; the
restriction is a deterministic function of the subset, so ties are broken
consistently. -/
theorem c7_top20_restriction :
    ∀ (df : List CleanRow) (sel : Option String) (lo hi : Int),
      (topNb (applyFilters df sel lo hi)).length ≤ 20 ∧
      (topNb (applyFilters df sel lo hi)).Nodup ∧
      (∀ v ∈ topNb (applyFilters df sel lo hi),
        v ∈ (applyFilters df sel lo hi).map fun r => r.neighbourhood) ∧
      (∀ v ∈ topNb (applyFilters df sel lo hi),
        ∀ w ∈ (applyFilters df sel lo hi).map (fun r => r.neighbourhood),
          w ∉ topNb (applyFilters df sel lo hi) →
            ((applyFilters df sel lo hi).map fun r => r.neighbourhood).count w ≤
              ((applyFilters df sel lo hi).map fun r => r.neighbourhood).count v) :=
  fun _ _ _ _ =>
    ⟨topValues_length_le _, topValues_nodup _,
      fun _ hv => topValues_subset hv,
      fun _ hv _ hw hnw => topValues_counts hv hw hnw⟩

/-- C7, witness: on a 21-neighborhood subset, "A" is kept, "U" is left out,
and the count comparison holds between them. -/
theorem c7_top20_restriction_witness :
    "A" ∈ topNb (applyFilters dfManyNb none 0 100) ∧
    "U" ∈ ((applyFilters dfManyNb none 0 100).map fun r => r.neighbourhood) ∧
    "U" ∉ topNb (applyFilters dfManyNb none 0 100) ∧
    ((applyFilters dfManyNb none 0 100).map fun r => r.neighbourhood).count "U" ≤
      ((applyFilters dfManyNb none 0 100).map fun r => r.neighbourhood).count "A" :=
  ⟨by decide, by decide, by decide,
    (c7_top20_restriction dfManyNb none 0 100).2.2.2 "A" (by decide) "U"
      (by decide) (by decide)⟩

/-! ### Claim C8 -/

/-- C8.  The callback is pure: it works on a copy and returns the canonical
cleaned table unchanged (also across the chronic-condition column
derivation, which only feeds `sixAggregates`), and invoking it again on the
table it returned yields the identical result, so equal inputs always yield
the same six aggregates. -/
theorem c8_callback_pure :
    ∀ (df : List CleanRow) (sel : Option String) (lo hi : Int),
      (updateCharts df sel lo hi).1 = df ∧
      updateCharts ((updateCharts df sel lo hi).1) sel lo hi =
        updateCharts df sel lo hi :=
  fun _ _ _ _ => ⟨rfl, rfl⟩

/-! ### Claim C9 -/

/-- C9.  The derived chronic flag used by aggregate (e) is the value the
chronic data set pairs with each row's outcome, and it reads "Yes" exactly
when at least one of the three chronic-condition flags (hypertension,
diabetes, alcoholism) is set — the logical OR of the three flags. -/
theorem c9_chronic_or :
    (∀ dff : List CleanRow,
      (sixAggregates dff).chronicData =
        dff.map fun r => (chronicCondition r, r.noShow)) ∧
    (∀ r : CleanRow, chronicCondition r = "Yes" ↔
      (0 < r.hipertension ∨ 0 < r.diabetes ∨ 0 < r.alcoholism)) := by
  refine ⟨fun dff => rfl, fun r => ?_⟩
  unfold chronicCondition hasChronic
  split_ifs with h
  · constructor
    · intro _
      omega
    · intro _
      rfl
  · constructor
    · intro hcon
      exact absurd hcon (by decide)
    · intro hor
      exact absurd (by omega : 0 < r.hipertension + r.diabetes + r.alcoholism) h

/-- C9, witness: the OR characterisation on a concrete row with the diabetes
flag set. -/
theorem c9_chronic_or_witness :
    chronicCondition (mkClean "X" 30 "No") = "Yes" ↔
      (0 < (mkClean "X" 30 "No").hipertension ∨
        0 < (mkClean "X" 30 "No").diabetes ∨
        0 < (mkClean "X" 30 "No").alcoholism) :=
  c9_chronic_or.2 (mkClean "X" 30 "No")

/-! ### Claim C10 -/

/-- C10.  For every age range, a falsy selector — `None` or the empty
string — applies no neighborhood restriction: the subset is all cleaned rows
within the age range, identical for the two falsy selectors, so an
empty-string neighborhood name can never act as an exact-match filter. -/
theorem c10_falsy_selector :
    ∀ (lo hi : Int) (df : List CleanRow),
      applyFilters df none lo hi = df.filter (agePred lo hi) ∧
      applyFilters df (some "") lo hi = df.filter (agePred lo hi) ∧
      applyFilters df (some "") lo hi = applyFilters df none lo hi :=
  fun lo hi df =>
    ⟨applyFilters_none df lo hi, applyFilters_empty_sel df lo hi,
      (applyFilters_empty_sel df lo hi).trans (applyFilters_none df lo hi).symm⟩

/-- C10, witness: the falsy-selector equalities on a concrete table. -/
theorem c10_falsy_selector_witness :
    applyFilters dfSmall (some "") 0 100 = applyFilters dfSmall none 0 100 :=
  (c10_falsy_selector 0 100 dfSmall).2.2
